import Mathlib

/-!
Shallow embedding of the Google Sign-In JWT verification core of this
repository (the Node.js server in `src/unnamed/part_001`): the base64url
codec (`base64UrlDecode`), the token decomposer (`parseJWT`) and the
verification orchestrator (`verifyJWT`), together with theorems settling
the specification claims about them.

Modelling conventions:
- JS strings are `List Char`; JS Buffers are `List Nat` (each element a byte).
- A possibly-absent JS object field is an `Option`.
- The two platform builtins that the verifier composes with — `JSON.parse`
  (applied to the decoded header and payload bytes) and the RSA-SHA256
  verification primitive built from `crypto.createPublicKey` /
  `crypto.createVerify` — are parameters of `verifyJWT` (`jsonH`, `jsonP`,
  `rsaVerify`).  The JSON Web Key Set obtained from the network by
  `fetchGooglePublicKeys` is likewise a parameter (`jwksKeys`); a result
  that is the same for every value of `jwksKeys` (resp. `rsaVerify`) is
  how "before any network call" (resp. "no signature verification is
  attempted") is expressed.
- Thrown `Error`s are the constructors of `JwtError`; each constructor is
  annotated with the exact message string thrown by the source.
-/

namespace GoogleSignIn

/-- The configured OAuth audience, `CLIENT_ID` in the source. -/
def CLIENT_ID : String :=
  "48315565897-6i3403uof617avnel62iu3jhcqo70u81.apps.googleusercontent.com"

/-- First step of `base64UrlDecode`: the two global replacements that turn
the URL-safe alphabet into the standard one, sending every dash to a plus
and every underscore to a slash, applied per character. -/
def b64Translate (c : Char) : Char :=
  if c = '-' then '+' else if c = '_' then '/' else c

/-- Second step of `base64UrlDecode`: `while (base64.length % 4) base64 += "="`.
The loop appends `'='` until the length is a multiple of 4, i.e. it appends
exactly `(4 - len % 4) % 4` padding characters. -/
def b64Pad (s : List Char) : List Char :=
  s ++ List.replicate ((4 - s.length % 4) % 4) '='

/-- The value of a character in the standard base64 alphabet used by
`Buffer.from(·, "base64")`; `none` for characters outside the alphabet. -/
def b64Val (c : Char) : Option Nat :=
  if 65 ≤ c.toNat ∧ c.toNat ≤ 90 then some (c.toNat - 65)
  else if 97 ≤ c.toNat ∧ c.toNat ≤ 122 then some (c.toNat - 97 + 26)
  else if 48 ≤ c.toNat ∧ c.toNat ≤ 57 then some (c.toNat - 48 + 52)
  else if c = '+' then some 62
  else if c = '/' then some 63
  else none

/-- Repacking of a stream of 6-bit values into 8-bit bytes, as the base64
decoder does: every full group of four sextets yields three bytes, a final
group of three yields two, a final group of two yields one, and a lone
trailing sextet (or nothing) yields none. -/
def b64Bytes : List Nat → List Nat
  | a :: b :: c :: d :: rest =>
      (a * 4 + b / 16) :: ((b % 16) * 16 + c / 4) :: ((c % 4) * 64 + d) :: b64Bytes rest
  | [a, b, c] => [a * 4 + b / 16, (b % 16) * 16 + c / 4]
  | [a, b] => [a * 4 + b / 16]
  | _ => []

/-- `Buffer.from(s, "base64")`.  Node's base64 decoder is lenient and total:
it never throws, it stops consuming at the first `'='` padding character,
and it silently skips characters outside the base64 alphabet. -/
def bufferFromBase64 (s : List Char) : List Nat :=
  b64Bytes ((s.takeWhile (fun c => c != '=')).filterMap b64Val)

/-- `base64UrlDecode(str)` from the source: translate the URL-safe
characters, restore padding, and decode with `Buffer.from(·, "base64")`. -/
def base64UrlDecode (s : List Char) : List Nat :=
  bufferFromBase64 (b64Pad (s.map b64Translate))

/-- The decoded JWT header object; the source reads only `kid` (and never
reads `alg`). -/
structure Header where
  alg : Option String
  kid : Option String
deriving DecidableEq

/-- The decoded JWT payload object: the claims the verifier checks
(`exp`, `aud`, `iss`) and the profile fields the login handler extracts. -/
structure Payload where
  exp : Option Int
  aud : Option String
  iss : Option String
  sub : Option String
  email : Option String
  name : Option String
  picture : Option String
  email_verified : Option Bool
deriving DecidableEq

/-- One record of the JSON Web Key Set fetched from Google; the source
reads `kid`, `kty`, `n` and `e`. -/
structure Key where
  kid : Option String
  kty : Option String
  n : Option String
  e : Option String
deriving DecidableEq

/-- The errors thrown by `parseJWT` / `verifyJWT`, one constructor per
`throw new Error(...)` site (plus the propagated `JSON.parse` failure). -/
inductive JwtError where
  /-- "Invalid JWT format" — the token does not split into 3 segments. -/
  | invalidJwtFormat
  /-- A `JSON.parse` of the decoded header or payload threw. -/
  | jsonError
  /-- "Token has expired" -/
  | tokenExpired
  /-- "Token audience mismatch" -/
  | audienceMismatch
  /-- "Invalid token issuer" -/
  | invalidIssuer
  /-- "Public key not found" -/
  | keyNotFound
  /-- "Invalid token signature" -/
  | invalidSignature
deriving DecidableEq

deriving instance DecidableEq for Except

/-- `token.split(".")` with a one-character literal separator, exactly as
JS `String.prototype.split` behaves on a non-regex separator (so
`"".split(".")` is `[""]`, and empty segments are kept). -/
def splitDot : List Char → List (List Char)
  | [] => [[]]
  | c :: rest =>
      if c = '.' then [] :: splitDot rest
      else
        match splitDot rest with
        | [] => [[c]]
        | p :: ps => (c :: p) :: ps

/-- The result of `parseJWT`: decoded `header` and `payload`, the third
segment left encoded as `signature`, and `raw`, the segment list itself. -/
structure ParsedJWT where
  header : Header
  payload : Payload
  signature : List Char
  raw : List (List Char)
deriving DecidableEq

/-- `parseJWT(token)` from the source: split on `'.'`, require exactly 3
segments, base64url-decode segments 1 and 2 and parse each as JSON
(`jsonH`, `jsonP` are `JSON.parse` composed with field extraction for the
header resp. the payload), leave segment 3 encoded. -/
def parseJWT (jsonH : List Nat → Option Header) (jsonP : List Nat → Option Payload)
    (token : List Char) : Except JwtError ParsedJWT :=
  match splitDot token with
  | [p0, p1, p2] =>
      match jsonH (base64UrlDecode p0) with
      | none => .error .jsonError
      | some header =>
          match jsonP (base64UrlDecode p1) with
          | none => .error .jsonError
          | some payload => .ok ⟨header, payload, p2, [p0, p1, p2]⟩
  | _ => .error .invalidJwtFormat

/-- The guard of VERIFICA 1, `payload.exp && payload.exp < now`: an absent
`exp` is falsy and so is the number `0`, so the conjunction is true only
for a present, non-zero `exp` that is strictly less than `now`. -/
def expTruthyAndExpired (exp : Option Int) (now : Int) : Bool :=
  match exp with
  | some e => e != 0 && decide (e < now)
  | none => false

/-- `verifyJWT(token)` from the source.  `now` is `Date.now()/1000`;
`jwksKeys` is the `keys` array of the JWKS document fetched (by
`fetchGooglePublicKeys`) only after the three claim checks pass;
`rsaVerify dataToVerify signatureBuffer key` is the RSA-SHA256
verification primitive applied to the signing input, the decoded
signature and the public key built from `key`'s JWK parameters. -/
def verifyJWT (jsonH : List Nat → Option Header) (jsonP : List Nat → Option Payload)
    (rsaVerify : List Char → List Nat → Key → Bool)
    (now : Int) (jwksKeys : List Key) (token : List Char) : Except JwtError Payload :=
  match parseJWT jsonH jsonP token with
  | .error err => .error err
  | .ok parsed =>
      if expTruthyAndExpired parsed.payload.exp now then .error .tokenExpired
      else if parsed.payload.aud != some CLIENT_ID then .error .audienceMismatch
      else if parsed.payload.iss != some "https://accounts.google.com"
              && parsed.payload.iss != some "accounts.google.com" then
        .error .invalidIssuer
      else
        match jwksKeys.find? (fun k => k.kid == parsed.header.kid) with
        | none => .error .keyNotFound
        | some key =>
            let signatureBuffer := base64UrlDecode parsed.signature
            let dataToVerify := parsed.raw.getD 0 [] ++ '.' :: parsed.raw.getD 1 []
            if rsaVerify dataToVerify signatureBuffer key then .ok parsed.payload
            else .error .invalidSignature

/-- The tail of `verifyJWT` (VERIFICA 4): key lookup by `kid` followed by
the RSA-SHA256 signature check over the first two raw segments.  This is
the part of the source that runs only after the three claim checks pass;
it is factored out here so the theorems below can speak about it. -/
def keyStep (rsaVerify : List Char → List Nat → Key → Bool)
    (jwksKeys : List Key) (parsed : ParsedJWT) : Except JwtError Payload :=
  match jwksKeys.find? (fun k => k.kid == parsed.header.kid) with
  | none => .error .keyNotFound
  | some key =>
      let signatureBuffer := base64UrlDecode parsed.signature
      let dataToVerify := parsed.raw.getD 0 [] ++ '.' :: parsed.raw.getD 1 []
      if rsaVerify dataToVerify signatureBuffer key then .ok parsed.payload
      else .error .invalidSignature

/-! ### Helper lemmas -/

/-- A segment containing no dot is returned whole by `splitDot`. -/
theorem splitDot_of_not_mem (c : List Char) (hc : '.' ∉ c) : splitDot c = [c] := by
  induction c with
  | nil => rfl
  | cons x xs ih =>
      have hx : x ≠ '.' := fun h => hc (h ▸ List.mem_cons_self x xs)
      have hxs : '.' ∉ xs := fun h => hc (List.mem_cons_of_mem x h)
      simp only [splitDot, if_neg hx, ih hxs]

/-- Splitting a string that starts with a dot-free segment followed by a
dot peels off that segment. -/
theorem splitDot_append (b c : List Char) (hb : '.' ∉ b) :
    splitDot (b ++ '.' :: c) = b :: splitDot c := by
  induction b with
  | nil => simp [splitDot]
  | cons x xs ih =>
      have hx : x ≠ '.' := fun h => hb (h ▸ List.mem_cons_self x xs)
      have hxs : '.' ∉ xs := fun h => hb (List.mem_cons_of_mem x h)
      simp only [List.cons_append, splitDot, if_neg hx, List.append_eq, ih hxs]

/-- A token built from three dot-free segments splits into exactly those
three segments, verbatim. -/
theorem splitDot_three (a b c : List Char) (ha : '.' ∉ a) (hb : '.' ∉ b) (hc : '.' ∉ c) :
    splitDot (a ++ '.' :: (b ++ '.' :: c)) = [a, b, c] := by
  rw [splitDot_append a (b ++ '.' :: c) ha, splitDot_append b c hb,
    splitDot_of_not_mem c hc]

/-- After a successful parse, `verifyJWT` is exactly the chain of checks
of the source, stated once and for all. -/
theorem verifyJWT_of_parse (jsonH : List Nat → Option Header)
    (jsonP : List Nat → Option Payload) (rsaVerify : List Char → List Nat → Key → Bool)
    (now : Int) (jwksKeys : List Key) (token : List Char) (parsed : ParsedJWT)
    (hp : parseJWT jsonH jsonP token = .ok parsed) :
    verifyJWT jsonH jsonP rsaVerify now jwksKeys token =
      (if expTruthyAndExpired parsed.payload.exp now then .error .tokenExpired
       else if parsed.payload.aud != some CLIENT_ID then .error .audienceMismatch
       else if parsed.payload.iss != some "https://accounts.google.com"
               && parsed.payload.iss != some "accounts.google.com" then
         .error .invalidIssuer
       else keyStep rsaVerify jwksKeys parsed) := by
  unfold verifyJWT keyStep
  rw [hp]

/-- On a token with exactly three segments, `parseJWT` decodes and parses
the first two and keeps the third as the still-encoded signature. -/
theorem parseJWT_three (jsonH : List Nat → Option Header)
    (jsonP : List Nat → Option Payload) (token p0 p1 p2 : List Char)
    (h : splitDot token = [p0, p1, p2]) :
    parseJWT jsonH jsonP token =
      (match jsonH (base64UrlDecode p0) with
       | none => .error .jsonError
       | some header =>
           match jsonP (base64UrlDecode p1) with
           | none => .error .jsonError
           | some payload => .ok ⟨header, payload, p2, [p0, p1, p2]⟩) := by
  unfold parseJWT
  rw [h]

/-- If the token does not have exactly three segments, `parseJWT` throws
"Invalid JWT format". -/
theorem parseJWT_invalid_format (jsonH : List Nat → Option Header)
    (jsonP : List Nat → Option Payload) (token : List Char)
    (h : (splitDot token).length ≠ 3) :
    parseJWT jsonH jsonP token = .error .invalidJwtFormat := by
  unfold parseJWT
  rcases hs : splitDot token with _ | ⟨p0, _ | ⟨p1, _ | ⟨p2, _ | ⟨p3, rest⟩⟩⟩⟩ <;>
    simp_all

/-- Every value produced by the alphabet table is a sextet. -/
theorem b64Val_lt (c : Char) (v : Nat) (h : b64Val c = some v) : v < 64 := by
  unfold b64Val at h
  split_ifs at h <;> simp_all <;> omega

/-- Byte repacking sends sextets to bytes. -/
theorem b64Bytes_bound : ∀ (l : List Nat), (∀ v ∈ l, v < 64) →
    ∀ x ∈ b64Bytes l, x < 256
  | a :: b :: c :: d :: rest, h, x, hx => by
      simp only [b64Bytes, List.mem_cons] at hx
      have ha := h a (by simp)
      have hb := h b (by simp)
      have hc := h c (by simp)
      have hd := h d (by simp)
      rcases hx with rfl | rfl | rfl | hx
      · omega
      · omega
      · omega
      · exact b64Bytes_bound rest (fun v hv => h v (by simp [hv])) x hx
  | [a, b, c], h, x, hx => by
      simp only [b64Bytes, List.mem_cons, List.not_mem_nil, or_false] at hx
      have ha := h a (by simp)
      have hb := h b (by simp)
      have hc := h c (by simp)
      rcases hx with rfl | rfl <;> omega
  | [a, b], h, x, hx => by
      simp only [b64Bytes, List.mem_cons, List.not_mem_nil, or_false] at hx
      have ha := h a (by simp)
      have hb := h b (by simp)
      subst hx; omega
  | [a], h, x, hx => by simp [b64Bytes] at hx
  | [], h, x, hx => by simp [b64Bytes] at hx

/-- The padding step always restores a length that is a multiple of 4. -/
theorem b64Pad_length (s : List Char) : (b64Pad s).length % 4 = 0 := by
  unfold b64Pad
  simp only [List.length_append, List.length_replicate]
  omega

/-- `takeWhile` passes over a prefix all of whose elements satisfy the
predicate. -/
theorem takeWhile_all_append {α : Type} (p : α → Bool) (l l' : List α)
    (h : ∀ x ∈ l, p x = true) :
    (l ++ l').takeWhile p = l ++ l'.takeWhile p := by
  induction l with
  | nil => rfl
  | cons x xs ih =>
      simp only [List.cons_append, List.takeWhile_cons, h x (by simp), ih
        (fun y hy => h y (by simp [hy])), if_true]

/-- The character translation never produces the padding character. -/
theorem b64Translate_ne (c : Char) (h : c ≠ '=') : b64Translate c ≠ '=' := by
  unfold b64Translate
  split_ifs <;> simp_all

/-- The key-lookup-and-signature tail can only produce success,
"Public key not found" or "Invalid token signature" — never one of the
three claim errors. -/
theorem keyStep_ne (rsaVerify : List Char → List Nat → Key → Bool)
    (jwksKeys : List Key) (parsed : ParsedJWT) :
    keyStep rsaVerify jwksKeys parsed ≠ .error .tokenExpired ∧
    keyStep rsaVerify jwksKeys parsed ≠ .error .audienceMismatch ∧
    keyStep rsaVerify jwksKeys parsed ≠ .error .invalidIssuer := by
  unfold keyStep
  cases hfind : jwksKeys.find? (fun k => k.kid == parsed.header.kid) with
  | none => simp
  | some key =>
      dsimp only
      split_ifs <;> simp

/-! ### Claim theorems -/

/-- C9: `base64UrlDecode` is total: for every input string — including the
empty string and strings containing characters outside the base64url
alphabet — it returns a byte sequence (every element is a byte, below 256)
and never throws: there is no failing path in the function. -/
theorem base64UrlDecode_total (s : List Char) :
    (base64UrlDecode s).all (fun b => decide (b < 256)) = true := by
  rw [List.all_eq_true]
  intro x hx
  rw [decide_eq_true_eq]
  unfold base64UrlDecode bufferFromBase64 at hx
  refine b64Bytes_bound _ ?_ x hx
  intro v hv
  rcases List.mem_filterMap.mp hv with ⟨c, _, hc⟩
  exact b64Val_lt c v hc

/-- C8 (counterexample): `"a!b!"` contains `'!'`, a character outside the
extended base64 alphabet, yet `base64UrlDecode` returns the byte `105`
(decoding `"ab"`) instead of failing with `MalformedEncoding`: there is no
failure path at all in the codec. -/
theorem base64UrlDecode_invalid_chars_returns_bytes :
    base64UrlDecode ("a!b!".data) = [105] := by decide

/-- C8 (amended): the decode operation never fails.  The padding loop
always restores a length that is a multiple of 4, and characters outside
the extended base64 alphabet are silently skipped by the decoder
(`Buffer.from(·, "base64")` is lenient): on any input without `'='`, the
result is just the repacking of the sextets of the alphabet characters
that occur in the translated input. -/
theorem base64UrlDecode_pads_and_skips (s : List Char) (h : '=' ∉ s) :
    (b64Pad (s.map b64Translate)).length % 4 = 0 ∧
    base64UrlDecode s = b64Bytes ((s.map b64Translate).filterMap b64Val) := by
  refine ⟨b64Pad_length _, ?_⟩
  unfold base64UrlDecode bufferFromBase64 b64Pad
  rw [takeWhile_all_append (fun c => c != '=') _ _ ?_]
  · have hrep : (List.replicate ((4 - (s.map b64Translate).length % 4) % 4) '=').takeWhile
        (fun c => c != '=') = [] := by
      cases hk : (4 - (s.map b64Translate).length % 4) % 4 with
      | zero => rfl
      | succ k => simp [List.replicate_succ, List.takeWhile_cons]
    rw [hrep, List.append_nil]
  · intro x hxm
    rcases List.mem_map.mp hxm with ⟨c, hcs, rfl⟩
    have hne := b64Translate_ne c (fun hh => h (hh ▸ hcs))
    simpa using hne

/-- Witness for C8 (amended) at the concrete input `"a!b!"`. -/
theorem base64UrlDecode_pads_and_skips_witness :
    (b64Pad (("a!b!".data).map b64Translate)).length % 4 = 0 ∧
    base64UrlDecode ("a!b!".data) =
      b64Bytes ((("a!b!".data).map b64Translate).filterMap b64Val) :=
  base64UrlDecode_pads_and_skips ("a!b!".data) (by decide)

/-- C5: a token that does not split on `'.'` into exactly three segments
makes `verifyJWT` fail with "Invalid JWT format" (`MalformedToken`), and
this happens before any network call: the result is this error for every
possible key set `jwksKeys` (and every signature primitive), so nothing
fetched over the network can influence it. -/
theorem verifyJWT_malformed_before_fetch (jsonH : List Nat → Option Header)
    (jsonP : List Nat → Option Payload) (rsaVerify : List Char → List Nat → Key → Bool)
    (now : Int) (jwksKeys : List Key) (token : List Char)
    (h : (splitDot token).length ≠ 3) :
    verifyJWT jsonH jsonP rsaVerify now jwksKeys token = .error .invalidJwtFormat := by
  unfold verifyJWT
  rw [parseJWT_invalid_format jsonH jsonP token h]

/-- Witness for C5 at the two-segment token `"a.b"` of the spec's negative
structural case. -/
theorem verifyJWT_malformed_before_fetch_witness :
    verifyJWT (fun _ => none) (fun _ => none) (fun _ _ _ => false) 0 []
      ("a.b".data) = .error .invalidJwtFormat :=
  verifyJWT_malformed_before_fetch _ _ _ _ _ _ (by decide)

/-- C1 (counterexample): a payload carrying no `exp` field at all is not
rejected: with matching audience, issuer and key, and a valid signature,
`verifyJWT` accepts the token outright — the guard
`payload.exp && payload.exp < now` is skipped for an absent `exp`, so the
token behaves as one that never expires, contradicting the claim that a
missing `exp` is treated as invalid. -/
theorem verifyJWT_no_exp_accepted :
    verifyJWT (fun _ => some ⟨some "RS256", some "k1"⟩)
      (fun _ => some ⟨none, some CLIENT_ID, some "accounts.google.com",
        none, none, none, none, none⟩)
      (fun _ _ _ => true) 1700000000
      [⟨some "k1", some "RSA", some "nn", some "AQAB"⟩]
      ("a.b.c".data)
      = .ok ⟨none, some CLIENT_ID, some "accounts.google.com",
          none, none, none, none, none⟩ := by decide

/-- C1 (amended): after a successful parse, `verifyJWT` returns "Token has
expired" (`ClaimExpired`) whenever `exp` is present, truthy (non-zero) and
strictly below `now` — for every key set and signature primitive, i.e.
regardless of signature validity — while a payload with no `exp` field is
never rejected as expired (the check is skipped, not failed). -/
theorem verifyJWT_exp_check (jsonH : List Nat → Option Header)
    (jsonP : List Nat → Option Payload) (rsaVerify : List Char → List Nat → Key → Bool)
    (now : Int) (jwksKeys : List Key) (token : List Char) (parsed : ParsedJWT)
    (hp : parseJWT jsonH jsonP token = .ok parsed) :
    (∀ e : Int, parsed.payload.exp = some e → e ≠ 0 → e < now →
       verifyJWT jsonH jsonP rsaVerify now jwksKeys token = .error .tokenExpired) ∧
    (parsed.payload.exp = none →
       verifyJWT jsonH jsonP rsaVerify now jwksKeys token ≠ .error .tokenExpired) := by
  rw [verifyJWT_of_parse jsonH jsonP rsaVerify now jwksKeys token parsed hp]
  constructor
  · intro e he hne hlt
    have hexp : expTruthyAndExpired parsed.payload.exp now = true := by
      simp [expTruthyAndExpired, he, hne, hlt]
    rw [hexp]
    simp
  · intro he
    have hexp : expTruthyAndExpired parsed.payload.exp now = false := by
      simp [expTruthyAndExpired, he]
    rw [hexp]
    simp only [Bool.false_eq_true, if_false]
    split_ifs with h1 h2
    · simp
    · simp
    · exact (keyStep_ne rsaVerify jwksKeys parsed).1

/-- Witness for C1 (amended): an `exp` of 5 at `now = 10` is rejected as
expired even though the signature primitive accepts everything, and a
payload with no `exp` does not produce the expiry error. -/
theorem verifyJWT_exp_check_witness :
    (verifyJWT (fun _ => some ⟨some "RS256", some "k1"⟩)
        (fun _ => some ⟨some 5, none, none, none, none, none, none, none⟩)
        (fun _ _ _ => true) 10 [] ("a.b.c".data) = .error .tokenExpired) ∧
    (verifyJWT (fun _ => some ⟨some "RS256", some "k1"⟩)
        (fun _ => some ⟨none, some CLIENT_ID, none, none, none, none, none, none⟩)
        (fun _ _ _ => true) 10 [] ("a.b.c".data) ≠ .error .tokenExpired) :=
  ⟨(verifyJWT_exp_check (fun _ => some ⟨some "RS256", some "k1"⟩)
      (fun _ => some ⟨some 5, none, none, none, none, none, none, none⟩)
      (fun _ _ _ => true) 10 [] ("a.b.c".data)
      ⟨⟨some "RS256", some "k1"⟩, ⟨some 5, none, none, none, none, none, none, none⟩,
        "c".data, ["a".data, "b".data, "c".data]⟩
      (by decide)).1 5 (by decide) (by decide) (by decide),
   (verifyJWT_exp_check (fun _ => some ⟨some "RS256", some "k1"⟩)
      (fun _ => some ⟨none, some CLIENT_ID, none, none, none, none, none, none⟩)
      (fun _ _ _ => true) 10 [] ("a.b.c".data)
      ⟨⟨some "RS256", some "k1"⟩, ⟨none, some CLIENT_ID, none, none, none, none, none, none⟩,
        "c".data, ["a".data, "b".data, "c".data]⟩
      (by decide)).2 (by decide)⟩

/-- C2 (counterexample): a token whose header declares `alg = "none"` — an
algorithm no sensible allow-list would contain — is not rejected with any
`UnsupportedAlgorithm` error (no such error even exists in the code); the
verifier proceeds to the hard-coded RSA-SHA256 primitive and, the
signature checking out, accepts the token. -/
theorem verifyJWT_alg_none_accepted :
    verifyJWT (fun _ => some ⟨some "none", some "k1"⟩)
      (fun _ => some ⟨some 99, some CLIENT_ID, some "https://accounts.google.com",
        none, none, none, none, none⟩)
      (fun _ _ _ => true) 10
      [⟨some "k1", some "RSA", some "nn", some "AQAB"⟩]
      ("a.b.c".data)
      = .ok ⟨some 99, some CLIENT_ID, some "https://accounts.google.com",
          none, none, none, none, none⟩ := by decide

/-- C2 (amended): `verifyJWT` never consults the header's `alg` field:
verification always uses the hard-coded RSA-SHA256 primitive, there is no
configured algorithm allow-list and no `UnsupportedAlgorithm` rejection,
and the outcome is identical for any two values of `alg` in an otherwise
identical header. -/
theorem verifyJWT_alg_ignored (jsonP : List Nat → Option Payload)
    (rsaVerify : List Char → List Nat → Key → Bool) (now : Int)
    (jwksKeys : List Key) (token : List Char) (kid a a' : Option String) :
    verifyJWT (fun _ => some ⟨a, kid⟩) jsonP rsaVerify now jwksKeys token =
    verifyJWT (fun _ => some ⟨a', kid⟩) jsonP rsaVerify now jwksKeys token := by
  by_cases h3 : ∃ p0 p1 p2, splitDot token = [p0, p1, p2]
  · obtain ⟨p0, p1, p2, h0⟩ := h3
    unfold verifyJWT
    rw [parseJWT_three (fun _ => some ⟨a, kid⟩) jsonP token p0 p1 p2 h0,
        parseJWT_three (fun _ => some ⟨a', kid⟩) jsonP token p0 p1 p2 h0]
    cases hjp : jsonP (base64UrlDecode p1) with
    | none => simp only [hjp]
    | some pl => simp only [hjp]
  · have hl : (splitDot token).length ≠ 3 := fun hlen => h3 (List.length_eq_three.mp hlen)
    unfold verifyJWT
    rw [parseJWT_invalid_format (fun _ => some ⟨a, kid⟩) jsonP token hl,
        parseJWT_invalid_format (fun _ => some ⟨a', kid⟩) jsonP token hl]

/-- C10: a payload with no `aud` field at all fails the audience check:
`undefined` is never strictly equal to the configured `CLIENT_ID`, so the
verifier returns "Token audience mismatch" for every key set and
signature primitive. -/
theorem verifyJWT_missing_aud (jsonH : List Nat → Option Header)
    (jsonP : List Nat → Option Payload) (rsaVerify : List Char → List Nat → Key → Bool)
    (now : Int) (jwksKeys : List Key) (token : List Char) (parsed : ParsedJWT)
    (hp : parseJWT jsonH jsonP token = .ok parsed)
    (hexp : expTruthyAndExpired parsed.payload.exp now = false)
    (haud : parsed.payload.aud = none) :
    verifyJWT jsonH jsonP rsaVerify now jwksKeys token = .error .audienceMismatch := by
  rw [verifyJWT_of_parse jsonH jsonP rsaVerify now jwksKeys token parsed hp, hexp]
  rw [haud]
  simp

/-- Witness for C10: a parsed payload with `aud` absent is rejected with
the audience error even though its issuer is valid and the signature
primitive accepts everything. -/
theorem verifyJWT_missing_aud_witness :
    verifyJWT (fun _ => some ⟨some "RS256", some "k1"⟩)
      (fun _ => some ⟨some 99, none, some "accounts.google.com",
        none, none, none, none, none⟩)
      (fun _ _ _ => true) 10 [⟨some "k1", some "RSA", some "nn", some "AQAB"⟩]
      ("a.b.c".data) = .error .audienceMismatch :=
  verifyJWT_missing_aud (fun _ => some ⟨some "RS256", some "k1"⟩)
    (fun _ => some ⟨some 99, none, some "accounts.google.com",
      none, none, none, none, none⟩)
    (fun _ _ _ => true) 10 [⟨some "k1", some "RSA", some "nn", some "AQAB"⟩]
    ("a.b.c".data)
    ⟨⟨some "RS256", some "k1"⟩, ⟨some 99, none, some "accounts.google.com",
      none, none, none, none, none⟩, "c".data, ["a".data, "b".data, "c".data]⟩
    (by decide) (by decide) (by decide)

/-- C3: after a successful parse of an unexpired token, the audience check
passes exactly when `aud` is strictly equal to the configured `CLIENT_ID`:
any differing `aud` — including prefixes or substrings of the client id —
yields "Token audience mismatch" for every key set and signature
primitive (i.e. even when issuer and signature are valid), and an equal
`aud` can never produce that error. -/
theorem verifyJWT_aud_exact (jsonH : List Nat → Option Header)
    (jsonP : List Nat → Option Payload) (rsaVerify : List Char → List Nat → Key → Bool)
    (now : Int) (jwksKeys : List Key) (token : List Char) (parsed : ParsedJWT)
    (hp : parseJWT jsonH jsonP token = .ok parsed)
    (hexp : expTruthyAndExpired parsed.payload.exp now = false) :
    (parsed.payload.aud ≠ some CLIENT_ID →
       verifyJWT jsonH jsonP rsaVerify now jwksKeys token = .error .audienceMismatch) ∧
    (parsed.payload.aud = some CLIENT_ID →
       verifyJWT jsonH jsonP rsaVerify now jwksKeys token ≠ .error .audienceMismatch) := by
  rw [verifyJWT_of_parse jsonH jsonP rsaVerify now jwksKeys token parsed hp, hexp]
  simp only [Bool.false_eq_true, if_false]
  constructor
  · intro h
    rw [show (parsed.payload.aud != some CLIENT_ID) = true from bne_iff_ne.mpr h]
    simp
  · intro h
    rw [show (parsed.payload.aud != some CLIENT_ID) = false from by simp [h]]
    simp only [Bool.false_eq_true, if_false]
    split_ifs
    · simp
    · exact (keyStep_ne rsaVerify jwksKeys parsed).2.1

/-- Witness for C3: an `aud` equal to `"48315565897"` — a strict prefix of
the configured client id — is rejected with the audience error even though
issuer and signature are valid, showing the comparison is not a
prefix/substring match. -/
theorem verifyJWT_aud_exact_witness :
    verifyJWT (fun _ => some ⟨some "RS256", some "k1"⟩)
      (fun _ => some ⟨some 99, some "48315565897", some "accounts.google.com",
        none, none, none, none, none⟩)
      (fun _ _ _ => true) 10 [⟨some "k1", some "RSA", some "nn", some "AQAB"⟩]
      ("a.b.c".data) = .error .audienceMismatch :=
  (verifyJWT_aud_exact (fun _ => some ⟨some "RS256", some "k1"⟩)
    (fun _ => some ⟨some 99, some "48315565897", some "accounts.google.com",
      none, none, none, none, none⟩)
    (fun _ _ _ => true) 10 [⟨some "k1", some "RSA", some "nn", some "AQAB"⟩]
    ("a.b.c".data)
    ⟨⟨some "RS256", some "k1"⟩, ⟨some 99, some "48315565897", some "accounts.google.com",
      none, none, none, none, none⟩, "c".data, ["a".data, "b".data, "c".data]⟩
    (by decide) (by decide)).1 (by decide)

/-- C4: after a successful parse of an unexpired token with matching
audience, the issuer check fails — with "Invalid token issuer" — exactly
when `iss` is strictly equal to neither `"https://accounts.google.com"`
nor `"accounts.google.com"`: membership in the two-element allow-list is
decided by exact string equality, never by substring matching. -/
theorem verifyJWT_iss_allowlist (jsonH : List Nat → Option Header)
    (jsonP : List Nat → Option Payload) (rsaVerify : List Char → List Nat → Key → Bool)
    (now : Int) (jwksKeys : List Key) (token : List Char) (parsed : ParsedJWT)
    (hp : parseJWT jsonH jsonP token = .ok parsed)
    (hexp : expTruthyAndExpired parsed.payload.exp now = false)
    (haud : parsed.payload.aud = some CLIENT_ID) :
    verifyJWT jsonH jsonP rsaVerify now jwksKeys token = .error .invalidIssuer ↔
      (parsed.payload.iss ≠ some "https://accounts.google.com" ∧
       parsed.payload.iss ≠ some "accounts.google.com") := by
  rw [verifyJWT_of_parse jsonH jsonP rsaVerify now jwksKeys token parsed hp, hexp]
  simp only [Bool.false_eq_true, if_false]
  rw [show (parsed.payload.aud != some CLIENT_ID) = false from by simp [haud]]
  simp only [Bool.false_eq_true, if_false]
  constructor
  · intro hres
    by_contra hcon
    rw [not_and_or] at hcon
    rcases hcon with hcon | hcon <;> rw [not_ne_iff] at hcon <;>
      simp only [hcon] at hres <;> simp at hres <;>
      exact (keyStep_ne rsaVerify jwksKeys parsed).2.2 hres
  · intro h
    rw [show (parsed.payload.iss != some "https://accounts.google.com" &&
        parsed.payload.iss != some "accounts.google.com") = true from by
      simp [bne_iff_ne, h.1, h.2]]
    simp

/-- Witness for C4: an `iss` of `"https://evil.accounts.google.com"` —
which contains the allowed issuer as a substring — is rejected with the
issuer error. -/
theorem verifyJWT_iss_allowlist_witness :
    verifyJWT (fun _ => some ⟨some "RS256", some "k1"⟩)
      (fun _ => some ⟨some 99, some CLIENT_ID, some "https://evil.accounts.google.com",
        none, none, none, none, none⟩)
      (fun _ _ _ => true) 10 [⟨some "k1", some "RSA", some "nn", some "AQAB"⟩]
      ("a.b.c".data) = .error .invalidIssuer :=
  (verifyJWT_iss_allowlist (fun _ => some ⟨some "RS256", some "k1"⟩)
    (fun _ => some ⟨some 99, some CLIENT_ID, some "https://evil.accounts.google.com",
      none, none, none, none, none⟩)
    (fun _ _ _ => true) 10 [⟨some "k1", some "RSA", some "nn", some "AQAB"⟩]
    ("a.b.c".data)
    ⟨⟨some "RS256", some "k1"⟩, ⟨some 99, some CLIENT_ID,
      some "https://evil.accounts.google.com", none, none, none, none, none⟩,
      "c".data, ["a".data, "b".data, "c".data]⟩
    (by decide) (by decide) (by decide)).mpr ⟨by decide, by decide⟩

/-- C6: when the header's `kid` matches no record of the fetched key set,
`verifyJWT` fails with "Public key not found" (`KeyNotFound`); the result
is the same for every signature primitive `rsaVerify`, so no signature
verification is attempted. -/
theorem verifyJWT_kid_not_found (jsonH : List Nat → Option Header)
    (jsonP : List Nat → Option Payload) (rsaVerify : List Char → List Nat → Key → Bool)
    (now : Int) (jwksKeys : List Key) (token : List Char) (parsed : ParsedJWT)
    (hp : parseJWT jsonH jsonP token = .ok parsed)
    (hexp : expTruthyAndExpired parsed.payload.exp now = false)
    (haud : parsed.payload.aud = some CLIENT_ID)
    (hiss : parsed.payload.iss = some "https://accounts.google.com" ∨
      parsed.payload.iss = some "accounts.google.com")
    (hfind : jwksKeys.find? (fun k => k.kid == parsed.header.kid) = none) :
    verifyJWT jsonH jsonP rsaVerify now jwksKeys token = .error .keyNotFound := by
  rw [verifyJWT_of_parse jsonH jsonP rsaVerify now jwksKeys token parsed hp, hexp]
  simp only [Bool.false_eq_true, if_false]
  rw [show (parsed.payload.aud != some CLIENT_ID) = false from by simp [haud]]
  simp only [Bool.false_eq_true, if_false]
  rw [show (parsed.payload.iss != some "https://accounts.google.com" &&
      parsed.payload.iss != some "accounts.google.com") = false from by
    rcases hiss with h | h <;> simp [h]]
  simp only [Bool.false_eq_true, if_false]
  unfold keyStep
  rw [hfind]

/-- Witness for C6: a key set whose only record has `kid = "other"` does
not match the header's `kid = "k1"`, and the token is rejected with the
key-not-found error even though the signature primitive accepts
everything. -/
theorem verifyJWT_kid_not_found_witness :
    verifyJWT (fun _ => some ⟨some "RS256", some "k1"⟩)
      (fun _ => some ⟨some 99, some CLIENT_ID, some "accounts.google.com",
        none, none, none, none, none⟩)
      (fun _ _ _ => true) 10 [⟨some "other", some "RSA", some "nn", some "AQAB"⟩]
      ("a.b.c".data) = .error .keyNotFound :=
  verifyJWT_kid_not_found (fun _ => some ⟨some "RS256", some "k1"⟩)
    (fun _ => some ⟨some 99, some CLIENT_ID, some "accounts.google.com",
      none, none, none, none, none⟩)
    (fun _ _ _ => true) 10 [⟨some "other", some "RSA", some "nn", some "AQAB"⟩]
    ("a.b.c".data)
    ⟨⟨some "RS256", some "k1"⟩, ⟨some 99, some CLIENT_ID, some "accounts.google.com",
      none, none, none, none, none⟩, "c".data, ["a".data, "b".data, "c".data]⟩
    (by decide) (by decide) (by decide) (Or.inr (by decide)) (by decide)

/-- C7: for a three-segment token `a.b.c` (segments dot-free, hence taken
verbatim from the input string), once the claim checks pass and a key is
found, the signature predicate is applied to exactly `a ++ "." ++ b` —
the first two raw, still-encoded segments joined by a dot, not anything
reconstructed from the decoded JSON — together with the decoded third
segment, and the verdict is decided by that application alone. -/
theorem verifyJWT_signing_input (jsonH : List Nat → Option Header)
    (jsonP : List Nat → Option Payload) (rsaVerify : List Char → List Nat → Key → Bool)
    (now : Int) (jwksKeys : List Key) (a b c : List Char) (parsed : ParsedJWT) (key : Key)
    (ha : '.' ∉ a) (hb : '.' ∉ b) (hc : '.' ∉ c)
    (hp : parseJWT jsonH jsonP (a ++ '.' :: (b ++ '.' :: c)) = .ok parsed)
    (hexp : expTruthyAndExpired parsed.payload.exp now = false)
    (haud : parsed.payload.aud = some CLIENT_ID)
    (hiss : parsed.payload.iss = some "https://accounts.google.com" ∨
      parsed.payload.iss = some "accounts.google.com")
    (hfind : jwksKeys.find? (fun k => k.kid == parsed.header.kid) = some key) :
    verifyJWT jsonH jsonP rsaVerify now jwksKeys (a ++ '.' :: (b ++ '.' :: c)) =
      (if rsaVerify (a ++ '.' :: b) (base64UrlDecode c) key then .ok parsed.payload
       else .error .invalidSignature) := by
  have hp' := hp
  rw [parseJWT_three jsonH jsonP _ a b c (splitDot_three a b c ha hb hc)] at hp'
  cases hH : jsonH (base64UrlDecode a) with
  | none => simp only [hH] at hp'; exact absurd hp' (by simp)
  | some hdr =>
      simp only [hH] at hp'
      cases hP : jsonP (base64UrlDecode b) with
      | none => simp only [hP] at hp'; exact absurd hp' (by simp)
      | some pl =>
          simp only [hP] at hp'
          injection hp' with hparsed
          rw [verifyJWT_of_parse jsonH jsonP rsaVerify now jwksKeys _ parsed hp, hexp]
          simp only [Bool.false_eq_true, if_false]
          rw [show (parsed.payload.aud != some CLIENT_ID) = false from by simp [haud]]
          simp only [Bool.false_eq_true, if_false]
          rw [show (parsed.payload.iss != some "https://accounts.google.com" &&
              parsed.payload.iss != some "accounts.google.com") = false from by
            rcases hiss with h | h <;> simp [h]]
          simp only [Bool.false_eq_true, if_false]
          unfold keyStep
          rw [hfind]
          subst hparsed
          rfl

/-- Witness for C7: on the token `"aa.bb.cc"` with everything aligned and
a primitive that accepts, the verifier returns the parsed payload. -/
theorem verifyJWT_signing_input_witness :
    verifyJWT (fun _ => some ⟨some "RS256", some "k1"⟩)
      (fun _ => some ⟨some 99, some CLIENT_ID, some "accounts.google.com",
        none, none, none, none, none⟩)
      (fun _ _ _ => true) 10 [⟨some "k1", some "RSA", some "nn", some "AQAB"⟩]
      ("aa".data ++ '.' :: ("bb".data ++ '.' :: "cc".data))
      = .ok ⟨some 99, some CLIENT_ID, some "accounts.google.com",
          none, none, none, none, none⟩ :=
  (verifyJWT_signing_input (fun _ => some ⟨some "RS256", some "k1"⟩)
    (fun _ => some ⟨some 99, some CLIENT_ID, some "accounts.google.com",
      none, none, none, none, none⟩)
    (fun _ _ _ => true) 10 [⟨some "k1", some "RSA", some "nn", some "AQAB"⟩]
    ("aa".data) ("bb".data) ("cc".data)
    ⟨⟨some "RS256", some "k1"⟩, ⟨some 99, some CLIENT_ID, some "accounts.google.com",
      none, none, none, none, none⟩, "cc".data, ["aa".data, "bb".data, "cc".data]⟩
    ⟨some "k1", some "RSA", some "nn", some "AQAB"⟩
    (by decide) (by decide) (by decide) (by decide) (by decide) (by decide)
    (Or.inr (by decide)) (by decide)).trans (by decide)

end GoogleSignIn
